import Mathlib

/-!
Shallow embedding of the client-side business logic of the meditrack
application: booking policy (BookAppointment), the appointment lifecycle
manager (ManageAppointments), prescription authoring (PrescriptionForm),
patient feedback collection (PatientFeedback) and doctor feedback
statistics (DoctorFeedback).

Modelling conventions:
- Calendar dates are day numbers (Nat); the string date fields of the
  source compare equal iff the day numbers are equal, and the date-only
  past check compares day numbers with the strict order.
- A missing value of a form field that the source checks for JS falsiness
  is the empty string (for text fields) or none (for the date field).
- The JS string trim is modelled as jsTrim below over the character list.
- Fallible handlers return Except with an error type naming the message
  that the source surfaces, instead of setting an error state variable.
- The external document store is passed in explicitly as a list of
  records; a query is a filter over that list, an insert is an append.
-/

/-- JS String.prototype.trim: drop whitespace from both ends. -/
def jsTrim (s : String) : String :=
  String.mk (((s.data.dropWhile Char.isWhitespace).reverse.dropWhile Char.isWhitespace).reverse)

/-- JS Math.round: round half toward positive infinity. -/
def jsRound (x : ℚ) : ℤ := ⌊x + 1/2⌋

/-- Profile data of the signed-in user exposed by the auth context. -/
structure UserData where
  uid : String
  name : String
deriving DecidableEq

/-- Doctor record as fetched from the users collection. -/
structure Doctor where
  id : String
  name : String
  email : String
deriving DecidableEq

/-- Appointment document as stored in the appointments collection
(the fields written by BookAppointment.handleSubmit, plus the id the
store assigns). The date is a day number, createdAt a timestamp. -/
structure Appointment where
  id : String
  patientId : String
  patientName : String
  doctorId : String
  doctorName : String
  date : Nat
  time : String
  note : String
  status : String
  createdAt : Nat
deriving DecidableEq

/-- Feedback document as stored in the feedback collection. -/
structure Feedback where
  id : String
  appointmentId : String
  patientId : String
  patientName : String
  doctorId : String
  doctorName : String
  rating : Nat
  comment : String
  createdAt : Nat
deriving DecidableEq

namespace BookAppointment

/-- The booking form state: doctorId, date, time, note. The date input
is none when the field is empty. -/
structure FormData where
  doctorId : String
  date : Option Nat
  time : String
  note : String
deriving DecidableEq

/-- The three rejection messages handleSubmit can set. -/
inductive BookingError where
  /-- "You can only book a maximum of 2 appointments per day" -/
  | capExceeded : BookingError
  /-- "Please fill in all required fields" -/
  | missingFields : BookingError
  /-- "Cannot book appointments for past dates" -/
  | pastDate : BookingError
deriving DecidableEq

/-- checkTodayBookings: count of the appointments whose patientId equals
the signed-in uid and whose date equals the current date (the query
where patientId == uid and date == today). -/
def checkTodayBookings (appointments : List Appointment) (uid : String) (today : Nat) : Nat :=
  (appointments.filter (fun a => a.patientId == uid && a.date == today)).length

/-- handleSubmit: the checks in source order (daily cap first, then the
required fields, then the past-date check), and on pass the appointment
document that addDoc writes (status pending, createdAt now). -/
def handleSubmit (todayBookings : Nat) (doctors : List Doctor) (formData : FormData)
    (today : Nat) (userData : UserData) (now : Nat) : Except BookingError Appointment :=
  if 2 ≤ todayBookings then .error .capExceeded
  else
    match formData.date with
    | none => .error .missingFields
    | some d =>
      if formData.doctorId = "" ∨ formData.time = "" then .error .missingFields
      else if d < today then .error .pastDate
      else
        .ok { id := ""
              patientId := userData.uid
              patientName := userData.name
              doctorId := formData.doctorId
              doctorName := ((doctors.find? (fun doc => doc.id == formData.doctorId)).map Doctor.name).getD ""
              date := d
              time := formData.time
              note := formData.note
              status := "pending"
              createdAt := now }

/-- One full booking call: the component reads todayBookings through
checkTodayBookings and then runs handleSubmit on it. -/
def submitBooking (appointments : List Appointment) (doctors : List Doctor)
    (formData : FormData) (today : Nat) (userData : UserData) (now : Nat) :
    Except BookingError Appointment :=
  handleSubmit (checkTodayBookings appointments userData.uid today) doctors formData today userData now

/-- The appointments collection after a booking call: the created
document is appended on success, nothing changes on rejection. -/
def storeAfterBooking (appointments : List Appointment) (doctors : List Doctor)
    (formData : FormData) (today : Nat) (userData : UserData) (now : Nat) : List Appointment :=
  match submitBooking appointments doctors formData today userData now with
  | .ok apt => appointments ++ [apt]
  | .error _ => appointments

/-- generateTimeSlots: for each hour 9..17 and each minute in {0, 30},
the string hh:mm with two-digit zero padding. -/
def generateTimeSlots : List String :=
  (List.range' 9 9).flatMap (fun hour =>
    [0, 30].map (fun minute =>
      (if hour < 10 then "0" ++ toString hour else toString hour) ++ ":" ++
      (if minute < 10 then "0" ++ toString minute else toString minute)))

end BookAppointment

namespace ManageAppointments

/-- One entry of the action list getAvailableActions renders: the target
status, the button label and the button color classes. -/
structure ActionItem where
  action : String
  label : String
  color : String
deriving DecidableEq

/-- getAvailableActions: the switch on the current status giving the
action buttons offered to the doctor; the default branch is empty. -/
def getAvailableActions (status : String) : List ActionItem :=
  if status = "pending" then
    [⟨"confirmed", "Confirm", "bg-blue-600 hover:bg-blue-700"⟩,
     ⟨"cancelled", "Cancel", "bg-red-600 hover:bg-red-700"⟩]
  else if status = "confirmed" then
    [⟨"in_progress", "Start", "bg-purple-600 hover:bg-purple-700"⟩,
     ⟨"cancelled", "Cancel", "bg-red-600 hover:bg-red-700"⟩]
  else if status = "in_progress" then
    [⟨"completed", "Complete", "bg-green-600 hover:bg-green-700"⟩]
  else []

/-- The one-step transition relation the lifecycle manager offers: the
target appears among the actions for the current status. -/
def stepOk (s t : String) : Prop :=
  t ∈ (getAvailableActions s).map ActionItem.action

instance (s t : String) : Decidable (stepOk s t) := by
  unfold stepOk; infer_instance

/-- The transition table of the specification, section 4.1. -/
def specTransitionTable : List (String × String) :=
  [("pending", "confirmed"), ("pending", "cancelled"),
   ("confirmed", "in_progress"), ("confirmed", "cancelled"),
   ("in_progress", "completed")]

/-- updateAppointmentStatus, local part: patch the in-memory list by
replacing the status of every appointment whose id matches. -/
def updateAppointmentStatus (appointments : List Appointment)
    (appointmentId : String) (newStatus : String) : List Appointment :=
  appointments.map (fun apt =>
    if apt.id = appointmentId then { apt with status := newStatus } else apt)

end ManageAppointments

/-- One medication row of the prescription form. -/
structure Medication where
  name : String
  dosage : String
  frequency : String
  duration : String
  instructions : String
deriving DecidableEq

/-- Prescription document as stored in the prescriptions collection. -/
structure Prescription where
  appointmentId : String
  patientId : String
  patientName : String
  diagnosis : String
  medications : List Medication
  notes : String
  createdAt : Nat
deriving DecidableEq

namespace PrescriptionForm

/-- The two alert messages the prescription form can raise. -/
inductive PrescriptionError where
  /-- "Please enter a diagnosis" -/
  | diagnosisRequired : PrescriptionError
  /-- "Please add at least one medication" -/
  | medicationsRequired : PrescriptionError
deriving DecidableEq

/-- handleSubmit of the prescription form: reject a diagnosis that trims
to empty; keep only the medications whose name trims to nonempty and
reject when none survives; otherwise persist the document with the
surviving medications. -/
def handleSubmit (appointmentId patientId patientName : String)
    (diagnosis : String) (medications : List Medication) (notes : String)
    (now : Nat) : Except PrescriptionError Prescription :=
  if jsTrim diagnosis = "" then .error .diagnosisRequired
  else
    let validMedications := medications.filter (fun med => jsTrim med.name != "")
    if validMedications.length = 0 then .error .medicationsRequired
    else
      .ok { appointmentId := appointmentId
            patientId := patientId
            patientName := patientName
            diagnosis := diagnosis
            medications := validMedications
            notes := notes
            createdAt := now }

end PrescriptionForm

namespace PatientFeedback

/-- fetchData: the two queries the feedback screen runs for the signed-in
patient: the completed appointments of the patient sorted by createdAt
descending, and the existing feedback of the patient. -/
def fetchData (appointments : List Appointment) (feedback : List Feedback)
    (uid : String) : List Appointment × List Feedback :=
  let appointmentsList :=
    (appointments.filter (fun a => a.patientId == uid && a.status == "completed")).mergeSort
      (fun a b => b.createdAt ≤ a.createdAt)
  let feedbackList := feedback.filter (fun f => f.patientId == uid)
  (appointmentsList, feedbackList)

/-- hasFeedback: some existing feedback has the given appointmentId. -/
def hasFeedback (existingFeedback : List Feedback) (appointmentId : String) : Bool :=
  existingFeedback.any (fun feedback => feedback.appointmentId == appointmentId)

/-- getFeedbackForAppointment: the first existing feedback with the
given appointmentId. -/
def getFeedbackForAppointment (existingFeedback : List Feedback)
    (appointmentId : String) : Option Feedback :=
  existingFeedback.find? (fun feedback => feedback.appointmentId == appointmentId)

/-- getAppointmentsWithoutFeedback: the completed appointments that have
no feedback yet. -/
def getAppointmentsWithoutFeedback (completedAppointments : List Appointment)
    (existingFeedback : List Feedback) : List Appointment :=
  completedAppointments.filter (fun apt => !(hasFeedback existingFeedback apt.id))

/-- The feedback document handleSubmitFeedback writes (the persisted
record carries patientId and patientName; the temporary local id is the
stringified current time). -/
def newFeedback (apt : Appointment) (rating : Nat) (comment : String)
    (userData : UserData) (now : Nat) : Feedback :=
  { id := toString now
    appointmentId := apt.id
    patientId := userData.uid
    patientName := userData.name
    doctorId := apt.doctorId
    doctorName := apt.doctorName
    rating := rating
    comment := jsTrim comment
    createdAt := now }

/-- handleSubmitFeedback: reject when no appointment is selected or the
rating is 0; otherwise create the feedback document and append it to the
existing feedback list. Returns the created document and the updated
list. -/
def handleSubmitFeedback (selectedAppointment : Option Appointment)
    (rating : Nat) (comment : String) (existingFeedback : List Feedback)
    (userData : UserData) (now : Nat) : Except Unit (Feedback × List Feedback) :=
  match selectedAppointment with
  | none => .error ()
  | some apt =>
    if rating = 0 then .error ()
    else
      let fb := newFeedback apt rating comment userData now
      .ok (fb, existingFeedback ++ [fb])

end PatientFeedback

namespace DoctorFeedback

/-- The rating histogram object with keys 1..5. -/
structure RatingDistribution where
  star1 : Nat
  star2 : Nat
  star3 : Nat
  star4 : Nat
  star5 : Nat
deriving DecidableEq

/-- Incrementing the histogram bucket indexed by a rating. The source
indexes the object literal with keys 1..5; other rating values never
occur in the data the star widget produces. -/
def bumpRating (d : RatingDistribution) (rating : Nat) : RatingDistribution :=
  match rating with
  | 1 => { d with star1 := d.star1 + 1 }
  | 2 => { d with star2 := d.star2 + 1 }
  | 3 => { d with star3 := d.star3 + 1 }
  | 4 => { d with star4 := d.star4 + 1 }
  | 5 => { d with star5 := d.star5 + 1 }
  | _ => d

/-- The stats object of the doctor feedback screen. -/
structure FeedbackStats where
  totalReviews : Nat
  averageRating : ℚ
  ratingDistribution : RatingDistribution
  withComments : Nat
deriving DecidableEq

/-- calculateStats: review count, mean rating rounded via Math.round to
one decimal, the rating histogram, and the count of feedback entries
with a nonempty trimmed comment. -/
def calculateStats (feedbackList : List Feedback) : FeedbackStats :=
  let totalReviews := feedbackList.length
  let averageRating : ℚ :=
    if 0 < totalReviews then
      ((feedbackList.map (fun fb => (fb.rating : ℚ))).sum) / totalReviews
    else 0
  let ratingDistribution :=
    feedbackList.foldl (fun d fb => bumpRating d fb.rating) ⟨0, 0, 0, 0, 0⟩
  let withComments :=
    (feedbackList.filter (fun fb => fb.comment != "" && jsTrim fb.comment != "")).length
  { totalReviews := totalReviews
    averageRating := (jsRound (averageRating * 10) : ℚ) / 10
    ratingDistribution := ratingDistribution
    withComments := withComments }

end DoctorFeedback

/-! Concrete records used to instantiate the theorems below. -/

def aptPending : Appointment :=
  ⟨"a1", "p1", "Pat One", "d1", "Doc One", 5, "09:00", "", "pending", 10⟩

def aptCompleted : Appointment :=
  ⟨"a2", "p1", "Pat One", "d1", "Doc One", 4, "10:00", "", "completed", 11⟩

def aptCompleted2 : Appointment :=
  ⟨"a3", "p1", "Pat One", "d2", "Doc Two", 6, "11:00", "", "completed", 12⟩

def fbForA2 : Feedback :=
  ⟨"f1", "a2", "p1", "Pat One", "d1", "Doc One", 5, "good", 20⟩

def sampleUser : UserData := ⟨"p1", "Pat One"⟩

def sampleDoctor : Doctor := ⟨"d1", "Doc One", "docone@hospital.test"⟩

def aptDay5A : Appointment :=
  ⟨"t1", "p1", "Pat One", "d1", "Doc One", 5, "09:00", "", "pending", 1⟩

def aptDay5B : Appointment :=
  ⟨"t2", "p1", "Pat One", "d1", "Doc One", 5, "09:30", "", "pending", 2⟩

def sampleForm : BookAppointment.FormData := ⟨"d1", some 5, "10:00", ""⟩

def sampleFormPast : BookAppointment.FormData := ⟨"d1", some 3, "10:00", ""⟩

def sampleFormNoDoctor : BookAppointment.FormData := ⟨"", some 5, "10:00", ""⟩

def medSpaceName : Medication := ⟨" ", "", "", "", ""⟩

def medAmox : Medication := ⟨"Amoxicillin", "500mg", "3 times daily", "7 days", "after food"⟩

def fbR5a : Feedback := ⟨"f5a", "a2", "p1", "Pat One", "d1", "Doc One", 5, "", 21⟩

def fbR4 : Feedback := ⟨"f4", "a3", "p2", "Pat Two", "d1", "Doc One", 4, "", 22⟩

def fbR5b : Feedback := ⟨"f5b", "a4", "p3", "Pat Three", "d1", "Doc One", 5, "", 23⟩

def fbR3 : Feedback := ⟨"f3", "a5", "p4", "Pat Four", "d1", "Doc One", 3, "", 24⟩

/-- C1: the action table of the lifecycle manager is exactly
pending -> {confirmed, cancelled}, confirmed -> {in_progress, cancelled},
in_progress -> {completed}, with completed and cancelled terminal, and
the one-step relation offered by getAvailableActions coincides with the
transition table of the specification for all statuses, so every status
sequence whose consecutive pairs are offered steps follows the table
with no skipped states. -/
theorem c1_getAvailableActions_table :
    ((ManageAppointments.getAvailableActions "pending").map ManageAppointments.ActionItem.action
        = ["confirmed", "cancelled"]) ∧
    ((ManageAppointments.getAvailableActions "confirmed").map ManageAppointments.ActionItem.action
        = ["in_progress", "cancelled"]) ∧
    ((ManageAppointments.getAvailableActions "in_progress").map ManageAppointments.ActionItem.action
        = ["completed"]) ∧
    ((ManageAppointments.getAvailableActions "completed").map ManageAppointments.ActionItem.action
        = []) ∧
    ((ManageAppointments.getAvailableActions "cancelled").map ManageAppointments.ActionItem.action
        = []) ∧
    (∀ s t, ManageAppointments.stepOk s t ↔ (s, t) ∈ ManageAppointments.specTransitionTable) := by
  refine ⟨by decide, by decide, by decide, by decide, by decide, ?_⟩
  intro s t
  unfold ManageAppointments.stepOk ManageAppointments.getAvailableActions
    ManageAppointments.specTransitionTable
  split_ifs with h1 h2 h3
  · subst h1; simp [Prod.ext_iff]
  · subst h2; simp [Prod.ext_iff]
  · subst h3; simp [Prod.ext_iff]
  · simp [Prod.ext_iff, h1, h2, h3]

/-- C9: the local update of updateAppointmentStatus is positionwise: the
appointment at each index is replaced by itself with only the status
field changed when its id matches, and kept identical otherwise; all
fields other than status are preserved by the replacement. -/
theorem c9_updateAppointmentStatus_frame (l : List Appointment)
    (appointmentId newStatus : String) (i : Nat) (apt : Appointment) :
    (ManageAppointments.updateAppointmentStatus l appointmentId newStatus)[i]? =
      l[i]?.map (fun a => if a.id = appointmentId then { a with status := newStatus } else a) ∧
    (apt.id ≠ appointmentId →
      (if apt.id = appointmentId then { apt with status := newStatus } else apt) = apt) ∧
    (apt.id = appointmentId →
      (if apt.id = appointmentId then { apt with status := newStatus } else apt)
        = { apt with status := newStatus }) ∧
    ({ apt with status := newStatus }).patientId = apt.patientId ∧
    ({ apt with status := newStatus }).patientName = apt.patientName ∧
    ({ apt with status := newStatus }).doctorId = apt.doctorId ∧
    ({ apt with status := newStatus }).doctorName = apt.doctorName ∧
    ({ apt with status := newStatus }).date = apt.date ∧
    ({ apt with status := newStatus }).time = apt.time ∧
    ({ apt with status := newStatus }).note = apt.note ∧
    ({ apt with status := newStatus }).createdAt = apt.createdAt ∧
    ({ apt with status := newStatus }).id = apt.id := by
  refine ⟨?_, fun h => if_neg h, fun h => if_pos h,
    rfl, rfl, rfl, rfl, rfl, rfl, rfl, rfl, rfl⟩
  unfold ManageAppointments.updateAppointmentStatus
  simp [List.getElem?_map]

/-- Witness for C9: the frame conditions evaluated on a concrete
appointment, for a non-matching and for a matching id. -/
theorem c9_updateAppointmentStatus_frame_witness :
    (aptPending.id ≠ "b2" ∧
      (if aptPending.id = "b2" then { aptPending with status := "confirmed" } else aptPending)
        = aptPending) ∧
    (aptPending.id = "a1" ∧
      (if aptPending.id = "a1" then { aptPending with status := "confirmed" } else aptPending)
        = { aptPending with status := "confirmed" }) :=
  ⟨⟨by decide, (c9_updateAppointmentStatus_frame [] "b2" "confirmed" 0 aptPending).2.1 (by decide)⟩,
   ⟨rfl, (c9_updateAppointmentStatus_frame [] "a1" "confirmed" 0 aptPending).2.2.1 rfl⟩⟩

/-- C10: generateTimeSlots returns exactly the 18 half-hour strings from
09:00 through 17:30, in strictly ascending order. -/
theorem c10_generateTimeSlots :
    BookAppointment.generateTimeSlots =
      ["09:00", "09:30", "10:00", "10:30", "11:00", "11:30", "12:00", "12:30",
       "13:00", "13:30", "14:00", "14:30", "15:00", "15:30", "16:00", "16:30",
       "17:00", "17:30"] ∧
    BookAppointment.generateTimeSlots.length = 18 ∧
    List.Chain' (fun a b => a < b) BookAppointment.generateTimeSlots := by
  have h : BookAppointment.generateTimeSlots =
      ["09:00", "09:30", "10:00", "10:30", "11:00", "11:30", "12:00", "12:30",
       "13:00", "13:30", "14:00", "14:30", "15:00", "15:30", "16:00", "16:30",
       "17:00", "17:30"] := by decide
  refine ⟨h, by rw [h]; rfl, ?_⟩
  rw [h]
  simp only [List.chain'_cons, List.chain'_singleton, String.lt_iff_toList_lt]
  decide

/-- Counterexample for C2: checkTodayBookings counts appointments dated
today, not the requested date. With two existing appointments on day 5
and the current date 4, a third booking for day 5 succeeds, leaving
three appointments of the patient sharing the same date value. -/
theorem c2_counterexample :
    (([aptDay5A, aptDay5B].filter (fun a => a.patientId == "p1" && a.date == 5)).length = 2) ∧
    (BookAppointment.submitBooking [aptDay5A, aptDay5B] [sampleDoctor] sampleForm 4
        sampleUser 30).isOk = true ∧
    (((BookAppointment.storeAfterBooking [aptDay5A, aptDay5B] [sampleDoctor] sampleForm 4
        sampleUser 30).filter
          (fun a => a.patientId == "p1" && a.date == 5)).length = 3) := by
  decide

/-- C2 amended: submitBooking counts the requesting patients existing
appointments whose date equals the CURRENT date (today), and rejects
with the policy error when that count is at least 2; hence a sequential
booking call never raises the number of the patients appointments dated
today above 2, while dates other than today are not capped. -/
theorem c2_amended_todayCap (appointments : List Appointment) (doctors : List Doctor)
    (formData : BookAppointment.FormData) (today : Nat) (userData : UserData) (now : Nat) :
    (2 ≤ BookAppointment.checkTodayBookings appointments userData.uid today →
      BookAppointment.submitBooking appointments doctors formData today userData now
        = .error .capExceeded) ∧
    (BookAppointment.checkTodayBookings appointments userData.uid today ≤ 2 →
      BookAppointment.checkTodayBookings
        (BookAppointment.storeAfterBooking appointments doctors formData today userData now)
        userData.uid today ≤ 2) := by
  constructor
  · intro h
    unfold BookAppointment.submitBooking BookAppointment.handleSubmit
    rw [if_pos h]
  · intro h
    unfold BookAppointment.storeAfterBooking
    by_cases hc : 2 ≤ BookAppointment.checkTodayBookings appointments userData.uid today
    · have hsub : BookAppointment.submitBooking appointments doctors formData today userData now
          = .error .capExceeded := by
        unfold BookAppointment.submitBooking BookAppointment.handleSubmit
        rw [if_pos hc]
      rw [hsub]
      exact h
    · cases hs : BookAppointment.submitBooking appointments doctors formData today userData now with
      | error e => exact h
      | ok apt =>
        show BookAppointment.checkTodayBookings (appointments ++ [apt]) userData.uid today ≤ 2
        have hle : BookAppointment.checkTodayBookings appointments userData.uid today ≤ 1 := by
          omega
        have hstep : BookAppointment.checkTodayBookings (appointments ++ [apt]) userData.uid today
            ≤ BookAppointment.checkTodayBookings appointments userData.uid today + 1 := by
          unfold BookAppointment.checkTodayBookings
          rw [List.filter_append, List.length_append]
          have hone : (List.filter (fun a => a.patientId == userData.uid && a.date == today)
              [apt]).length ≤ 1 := by
            simpa using List.length_filter_le
              (fun a => a.patientId == userData.uid && a.date == today) [apt]
          omega
        omega

/-- Witness for C2 amended: with two appointments dated 5 and the current
date 5, the cap fires and the today-count stays at most 2. -/
theorem c2_amended_todayCap_witness :
    (2 ≤ BookAppointment.checkTodayBookings [aptDay5A, aptDay5B] sampleUser.uid 5 ∧
      BookAppointment.submitBooking [aptDay5A, aptDay5B] [sampleDoctor] sampleForm 5
        sampleUser 30 = .error .capExceeded) ∧
    (BookAppointment.checkTodayBookings [aptDay5A, aptDay5B] sampleUser.uid 5 ≤ 2 ∧
      BookAppointment.checkTodayBookings
        (BookAppointment.storeAfterBooking [aptDay5A, aptDay5B] [sampleDoctor] sampleForm 5
          sampleUser 30) sampleUser.uid 5 ≤ 2) :=
  ⟨⟨by decide, (c2_amended_todayCap [aptDay5A, aptDay5B] [sampleDoctor] sampleForm 5
      sampleUser 30).1 (by decide)⟩,
   ⟨by decide, (c2_amended_todayCap [aptDay5A, aptDay5B] [sampleDoctor] sampleForm 5
      sampleUser 30).2 (by decide)⟩⟩

/-- C4: a booking whose date lies strictly before today is never
accepted (no appointment document is created), and when the preceding
checks pass (cap not reached, doctor and time present) the surfaced
error is exactly the past-date validation error. -/
theorem c4_pastDate_rejected (appointments : List Appointment) (doctors : List Doctor)
    (formData : BookAppointment.FormData) (today : Nat) (userData : UserData) (now : Nat)
    (d : Nat) (hd : formData.date = some d) (hpast : d < today) :
    (BookAppointment.submitBooking appointments doctors formData today userData now).isOk
      = false ∧
    (BookAppointment.checkTodayBookings appointments userData.uid today < 2 →
      formData.doctorId ≠ "" → formData.time ≠ "" →
      BookAppointment.submitBooking appointments doctors formData today userData now
        = .error .pastDate) := by
  simp only [BookAppointment.submitBooking, BookAppointment.handleSubmit, hd]
  by_cases hc : 2 ≤ BookAppointment.checkTodayBookings appointments userData.uid today
  · rw [if_pos hc]
    exact ⟨rfl, fun hlt => absurd hc (by omega)⟩
  · rw [if_neg hc]
    by_cases hm : formData.doctorId = "" ∨ formData.time = ""
    · rw [if_pos hm]
      refine ⟨rfl, fun _ h1 h2 => ?_⟩
      rcases hm with hm | hm
      · exact absurd hm h1
      · exact absurd hm h2
    · rw [if_neg hm, if_pos hpast]
      exact ⟨rfl, fun _ _ _ => rfl⟩

/-- Witness for C4: booking day 3 when today is day 5 with all other
fields valid and an empty store is rejected with the past-date error. -/
theorem c4_pastDate_rejected_witness :
    sampleFormPast.date = some 3 ∧ 3 < 5 ∧
    (BookAppointment.submitBooking [] [sampleDoctor] sampleFormPast 5 sampleUser 30).isOk
      = false ∧
    BookAppointment.submitBooking [] [sampleDoctor] sampleFormPast 5 sampleUser 30
      = .error .pastDate :=
  ⟨rfl, by omega,
   (c4_pastDate_rejected [] [sampleDoctor] sampleFormPast 5 sampleUser 30 3 rfl (by omega)).1,
   (c4_pastDate_rejected [] [sampleDoctor] sampleFormPast 5 sampleUser 30 3 rfl (by omega)).2
     (by decide) (by decide) (by decide)⟩

/-- Counterexample for C8: the daily-cap check runs before the
required-fields check, so with two appointments dated today a request
with a missing doctorId is rejected with the cap policy error, not the
missing-required-fields validation error. -/
theorem c8_counterexample :
    sampleFormNoDoctor.doctorId = "" ∧
    BookAppointment.submitBooking [aptDay5A, aptDay5B] [sampleDoctor] sampleFormNoDoctor 5
        sampleUser 30 = .error .capExceeded ∧
    BookAppointment.submitBooking [aptDay5A, aptDay5B] [sampleDoctor] sampleFormNoDoctor 5
        sampleUser 30 ≠ .error .missingFields := by
  refine ⟨rfl, rfl, ?_⟩
  intro h
  have h2 : (Except.error BookAppointment.BookingError.capExceeded : Except _ Appointment)
      = Except.error BookAppointment.BookingError.missingFields := h
  exact absurd (Except.error.inj h2) (by decide)

/-- C8 amended: a booking request missing doctorId, date or time is
always rejected (no appointment document is created); the surfaced error
is the missing-required-fields validation error whenever the daily cap
has not already been reached, and the cap policy error otherwise. -/
theorem c8_amended_missingFields (appointments : List Appointment) (doctors : List Doctor)
    (formData : BookAppointment.FormData) (today : Nat) (userData : UserData) (now : Nat)
    (hmiss : formData.doctorId = "" ∨ formData.date = none ∨ formData.time = "") :
    (BookAppointment.submitBooking appointments doctors formData today userData now).isOk
      = false ∧
    (BookAppointment.checkTodayBookings appointments userData.uid today < 2 →
      BookAppointment.submitBooking appointments doctors formData today userData now
        = .error .missingFields) := by
  by_cases hc : 2 ≤ BookAppointment.checkTodayBookings appointments userData.uid today
  · simp only [BookAppointment.submitBooking, BookAppointment.handleSubmit]
    rw [if_pos hc]
    exact ⟨rfl, fun hlt => absurd hc (by omega)⟩
  · cases hdate : formData.date with
    | none =>
      simp only [BookAppointment.submitBooking, BookAppointment.handleSubmit, hdate]
      rw [if_neg hc]
      exact ⟨rfl, fun _ => rfl⟩
    | some d =>
      have hm : formData.doctorId = "" ∨ formData.time = "" := by
        rcases hmiss with hm | hm | hm
        · exact Or.inl hm
        · rw [hdate] at hm; cases hm
        · exact Or.inr hm
      simp only [BookAppointment.submitBooking, BookAppointment.handleSubmit, hdate]
      rw [if_neg hc, if_pos hm]
      exact ⟨rfl, fun _ => rfl⟩

/-- Witness for C8 amended: a request with a missing doctorId against an
empty store is rejected with the missing-required-fields error. -/
theorem c8_amended_missingFields_witness :
    (sampleFormNoDoctor.doctorId = "" ∨ sampleFormNoDoctor.date = none ∨
      sampleFormNoDoctor.time = "") ∧
    (BookAppointment.submitBooking [] [sampleDoctor] sampleFormNoDoctor 5 sampleUser 30).isOk
      = false ∧
    BookAppointment.submitBooking [] [sampleDoctor] sampleFormNoDoctor 5 sampleUser 30
      = .error .missingFields :=
  ⟨Or.inl rfl,
   (c8_amended_missingFields [] [sampleDoctor] sampleFormNoDoctor 5 sampleUser 30
      (Or.inl rfl)).1,
   (c8_amended_missingFields [] [sampleDoctor] sampleFormNoDoctor 5 sampleUser 30
      (Or.inl rfl)).2 (by decide)⟩

/-- The prescription handler with its local binding unfolded; used to
reason about the two validation branches. -/
theorem prescription_handleSubmit_eq (appointmentId patientId patientName diagnosis : String)
    (medications : List Medication) (notes : String) (now : Nat) :
    PrescriptionForm.handleSubmit appointmentId patientId patientName diagnosis medications
        notes now =
      if jsTrim diagnosis = "" then .error .diagnosisRequired
      else if (medications.filter (fun med => jsTrim med.name != "")).length = 0 then
        .error .medicationsRequired
      else
        .ok { appointmentId := appointmentId
              patientId := patientId
              patientName := patientName
              diagnosis := diagnosis
              medications := medications.filter (fun med => jsTrim med.name != "")
              notes := notes
              createdAt := now } := rfl

/-- Counterexample for C3: a medication whose name is a single space is
nonempty, so the claim filter keeps it, yet createPrescription rejects
the input because the source filters on the trimmed name. -/
theorem c3_counterexample :
    jsTrim "flu" ≠ "" ∧
    [medSpaceName].filter (fun med => med.name != "") ≠ [] ∧
    PrescriptionForm.handleSubmit "a2" "p1" "Pat One" "flu" [medSpaceName] "" 40
      = .error .medicationsRequired :=
  ⟨by decide, by decide, rfl⟩

/-- C3 amended: createPrescription rejects every input whose diagnosis
is empty or all-whitespace, and every input whose medications filter to
an empty list under the trimmed-name criterion (name nonempty after
trimming whitespace); on acceptance exactly the surviving entries are
persisted, at least one survives, and every survivor has a name that is
nonempty after trimming. -/
theorem c3_createPrescription_validation
    (appointmentId patientId patientName diagnosis : String)
    (medications : List Medication) (notes : String) (now : Nat) :
    ((diagnosis = "" ∨ ∀ c ∈ diagnosis.data, c.isWhitespace) →
      PrescriptionForm.handleSubmit appointmentId patientId patientName diagnosis medications
          notes now = .error .diagnosisRequired) ∧
    (medications.filter (fun med => jsTrim med.name != "") = [] →
      (PrescriptionForm.handleSubmit appointmentId patientId patientName diagnosis medications
          notes now).isOk = false) ∧
    (∀ p, PrescriptionForm.handleSubmit appointmentId patientId patientName diagnosis
        medications notes now = .ok p →
      p.medications = medications.filter (fun med => jsTrim med.name != "") ∧
      p.medications ≠ [] ∧
      ∀ med ∈ p.medications, jsTrim med.name ≠ "") := by
  rw [prescription_handleSubmit_eq]
  refine ⟨?_, ?_, ?_⟩
  · intro hdiag
    have hd : jsTrim diagnosis = "" := by
      unfold jsTrim
      rcases hdiag with h | h
      · rw [h]; rfl
      · have h1 : diagnosis.data.dropWhile Char.isWhitespace = [] := by
          rw [List.dropWhile_eq_nil_iff]
          intro c hc
          exact h c hc
        rw [h1]
        rfl
    rw [if_pos hd]
  · intro hfilt
    by_cases hd : jsTrim diagnosis = ""
    · rw [if_pos hd]; rfl
    · rw [if_neg hd, hfilt]
      rfl
  · intro p hp
    by_cases hd : jsTrim diagnosis = ""
    · rw [if_pos hd] at hp; cases hp
    · rw [if_neg hd] at hp
      by_cases hf : (medications.filter (fun med => jsTrim med.name != "")).length = 0
      · rw [if_pos hf] at hp; cases hp
      · rw [if_neg hf] at hp
        have hp2 := Except.ok.inj hp
        subst hp2
        refine ⟨rfl, ?_, ?_⟩
        · intro hnil
          exact hf (congrArg List.length hnil)
        · intro med hmed
          have hmem : med ∈ medications.filter (fun med => jsTrim med.name != "") := hmed
          have := List.of_mem_filter hmem
          simpa using this

/-- Witness for C3 amended: an all-whitespace diagnosis is rejected; a
trimmed-out medication list is rejected; a valid input persists exactly
the surviving medication. -/
theorem c3_createPrescription_validation_witness :
    (("  " : String) = "" ∨ ∀ c ∈ ("  " : String).data, c.isWhitespace) ∧
    PrescriptionForm.handleSubmit "a2" "p1" "Pat One" "  " [medAmox] "" 40
      = .error .diagnosisRequired ∧
    ([medSpaceName].filter (fun med => jsTrim med.name != "") = []) ∧
    (PrescriptionForm.handleSubmit "a2" "p1" "Pat One" "flu" [medSpaceName] "" 40).isOk
      = false ∧
    PrescriptionForm.handleSubmit "a2" "p1" "Pat One" "flu" [medAmox, medSpaceName] "" 40
      = .ok ⟨"a2", "p1", "Pat One", "flu", [medAmox], "", 40⟩ ∧
    ([medAmox, medSpaceName].filter (fun med => jsTrim med.name != "") = [medAmox]) :=
  ⟨Or.inr (by decide),
   (c3_createPrescription_validation "a2" "p1" "Pat One" "  " [medAmox] "" 40).1
     (Or.inr (by decide)),
   by decide,
   (c3_createPrescription_validation "a2" "p1" "Pat One" "flu" [medSpaceName] "" 40).2.1
     (by decide),
   rfl,
   by decide⟩

/-- Counterexample for C5: the handler only rejects rating 0; a rating
of 6, although outside [1,5], is accepted and a feedback record is
created. -/
theorem c5_counterexample :
    ¬(1 ≤ 6 ∧ 6 ≤ 5) ∧
    (PatientFeedback.handleSubmitFeedback (some aptCompleted) 6 "" [] sampleUser 50).isOk
      = true :=
  ⟨by omega, rfl⟩

/-- C5 amended: submitFeedback fails exactly when no appointment is
selected or the rating is 0; in particular for every rating in [1,5]
with a selected appointment it succeeds, and the submitted feedback is
in the updated feedback set and retrievable for that appointmentId. -/
theorem c5_submitFeedback_validation (selectedAppointment : Option Appointment)
    (rating : Nat) (comment : String) (existingFeedback : List Feedback)
    (userData : UserData) (now : Nat) :
    ((PatientFeedback.handleSubmitFeedback selectedAppointment rating comment
        existingFeedback userData now).isOk = false ↔
      (selectedAppointment = none ∨ rating = 0)) ∧
    (∀ apt, selectedAppointment = some apt → 1 ≤ rating → rating ≤ 5 →
      ∃ fb newList,
        PatientFeedback.handleSubmitFeedback selectedAppointment rating comment
          existingFeedback userData now = .ok (fb, newList) ∧
        fb.appointmentId = apt.id ∧ fb.rating = rating ∧ fb.patientId = userData.uid ∧
        fb ∈ newList ∧
        PatientFeedback.hasFeedback newList apt.id = true ∧
        (PatientFeedback.getFeedbackForAppointment newList apt.id).isSome = true) := by
  cases selectedAppointment with
  | none =>
    refine ⟨?_, ?_⟩
    · simp [PatientFeedback.handleSubmitFeedback, Except.isOk, Except.toBool]
    · intro apt h; cases h
  | some apt =>
    refine ⟨?_, ?_⟩
    · by_cases hr : rating = 0
      · simp [PatientFeedback.handleSubmitFeedback, hr, Except.isOk, Except.toBool]
      · simp [PatientFeedback.handleSubmitFeedback, hr, Except.isOk, Except.toBool]
    · intro apt2 h hr1 hr5
      have happ : apt = apt2 := Option.some.inj h
      subst happ
      have hr : rating ≠ 0 := by omega
      refine ⟨PatientFeedback.newFeedback apt rating comment userData now,
        existingFeedback ++ [PatientFeedback.newFeedback apt rating comment userData now],
        ?_, rfl, rfl, rfl, ?_, ?_, ?_⟩
      · simp [PatientFeedback.handleSubmitFeedback, hr]
      · simp
      · unfold PatientFeedback.hasFeedback
        simp [PatientFeedback.newFeedback]
      · unfold PatientFeedback.getFeedbackForAppointment
        rw [List.find?_isSome]
        exact ⟨PatientFeedback.newFeedback apt rating comment userData now,
          by simp, by simp [PatientFeedback.newFeedback]⟩

/-- Witness for C5 amended: a rating of 5 on a completed appointment
with no prior feedback succeeds and is retrievable. -/
theorem c5_submitFeedback_validation_witness :
    (some aptCompleted = some aptCompleted) ∧ 1 ≤ 5 ∧ 5 ≤ 5 ∧
    (∃ fb newList,
      PatientFeedback.handleSubmitFeedback (some aptCompleted) 5 "good" [] sampleUser 50
        = .ok (fb, newList) ∧
      fb.appointmentId = aptCompleted.id ∧ fb.rating = 5 ∧ fb.patientId = sampleUser.uid ∧
      fb ∈ newList ∧
      PatientFeedback.hasFeedback newList aptCompleted.id = true ∧
      (PatientFeedback.getFeedbackForAppointment newList aptCompleted.id).isSome = true) :=
  ⟨rfl, by omega, by omega,
   (c5_submitFeedback_validation (some aptCompleted) 5 "good" [] sampleUser 50).2
     aptCompleted rfl (by omega) (by omega)⟩

/-- C6: an appointment is offered for feedback exactly when it is one of
the patients appointments, has status completed, and no feedback record
in the patients fetched feedback set has a matching appointmentId. -/
theorem c6_offered_iff_completed_and_unreviewed (appointments : List Appointment)
    (feedback : List Feedback) (uid : String) (apt : Appointment) :
    (apt ∈ PatientFeedback.getAppointmentsWithoutFeedback
        (PatientFeedback.fetchData appointments feedback uid).1
        (PatientFeedback.fetchData appointments feedback uid).2) ↔
    (apt ∈ appointments ∧ apt.patientId = uid ∧ apt.status = "completed" ∧
      ∀ fb ∈ (PatientFeedback.fetchData appointments feedback uid).2,
        fb.appointmentId ≠ apt.id) := by
  unfold PatientFeedback.getAppointmentsWithoutFeedback PatientFeedback.fetchData
    PatientFeedback.hasFeedback
  rw [List.mem_filter]
  rw [(List.mergeSort_perm
    (appointments.filter (fun a => a.patientId == uid && a.status == "completed"))
    (fun a b => b.createdAt ≤ a.createdAt)).mem_iff]
  rw [List.mem_filter]
  simp only [Bool.and_eq_true, beq_iff_eq, Bool.not_eq_true', List.any_eq_false,
    Bool.not_eq_true, and_assoc]

/-- C7: for a doctor with feedback records rated 5, 4, 5 and 3, the
aggregate statistics are 4 total reviews, an average rating of 4.3 (the
mean 4.25 scaled by ten, rounded half up by Math.round, and divided by
ten again) and the rating histogram 1:0, 2:0, 3:1, 4:1, 5:2. -/
theorem c7_calculateStats_concrete :
    (DoctorFeedback.calculateStats [fbR5a, fbR4, fbR5b, fbR3]).totalReviews = 4 ∧
    (DoctorFeedback.calculateStats [fbR5a, fbR4, fbR5b, fbR3]).averageRating = 43 / 10 ∧
    (DoctorFeedback.calculateStats [fbR5a, fbR4, fbR5b, fbR3]).ratingDistribution
      = ⟨0, 0, 1, 1, 2⟩ := by
  refine ⟨rfl, ?_, by decide⟩
  show (jsRound ((((fbR5a.rating : ℚ) + ((fbR4.rating : ℚ) + ((fbR5b.rating : ℚ)
      + ((fbR3.rating : ℚ) + 0)))) / 4) * 10) : ℚ) / 10 = 43 / 10
  norm_num [jsRound, fbR5a, fbR4, fbR5b, fbR3]
